import Mathlib

/-!
Verification development for the Botivate HR Support frontend.

The definitions below are shallow embeddings of the client-side state
logic of the repository: the approvals decide handlers
(`ApprovalsPanel.handleDecision`, `ChatPage.handleDecision`), the role
gate (`AuthContext.isAuthority`), the dashboard poll tick
(`DashboardPage`'s `setInterval` refresh of notifications and
my-requests), the notification mark-read click handlers, the chat send
handlers, the onboarding workflow handlers (`OnboardingPage`), and the
add-employee modal initializer (`SettingsPanel.openAddModal`).

Remote calls are modelled by passing their outcome as an explicit
parameter and recording the issued calls in a log; component state is
passed explicitly.
-/

namespace HRSupport

/-- Roles carried by the authenticated user (`user.role`). -/
inductive Role
  | employee
  | manager
  | hr
  | admin
  | ceo
deriving DecidableEq, Repr

/-- The authenticated identity stored by `AuthContext`. -/
structure User where
  role : Role
  employee_name : String
  company_id : String
deriving DecidableEq, Repr

/-- The roles listed in `AuthContext.isAuthority`. -/
def authorityRoles : List Role :=
  [Role.manager, Role.hr, Role.admin, Role.ceo]

/-- `AuthContext.isAuthority`: `user && ['manager','hr','admin','ceo'].includes(user.role)`. -/
def isAuthority (user : Option User) : Bool :=
  match user with
  | none => false
  | some u => decide (u.role ∈ authorityRoles)

/-- An approval-workflow request as rendered by the client. -/
structure Request where
  id : Nat
  status : String
  request_type : String
  employee_name : String
  employee_id : String
  context : String
  summary_report : String
  created_at : Nat
deriving DecidableEq, Repr

/-- A notification record as rendered by the client. -/
structure Notification where
  id : Nat
  title : String
  message : String
  is_read : Bool
  created_at : Nat
deriving DecidableEq, Repr

/-- A remote HTTP call issued by a handler, recorded for counting. -/
structure RemoteCall where
  endpoint : String
  reqId : Nat
  payload : String
deriving DecidableEq, Repr

/-- Whether the awaited remote decide call resolved or rejected. -/
inductive DecideOutcome
  | success
  | failure
deriving DecidableEq, Repr

/-- Result of one run of a decide handler: the cache state while the
remote call is pending, the state after the handler settles, the remote
calls issued, and the toast messages shown. -/
structure DecideRun where
  inFlightState : List Request
  finalState : List Request
  remoteCalls : List RemoteCall
  toasts : List String
deriving DecidableEq, Repr

/-- The optimistic removal `prev.filter(req => req.id !== id)` used by
`ApprovalsPanel.handleDecision`. -/
def optimisticApply (pendingRequests : List Request) (id : Nat) : List Request :=
  pendingRequests.filter (fun req => req.id != id)

/-- The decide POST issued by `ApprovalsPanel.handleDecision`, with the
`{status, comments}` body built from the acting user's display name. -/
def decideCall (id : Nat) (status userName : String) : RemoteCall :=
  { endpoint := "api/approvals/" ++ toString id ++ "/decide"
    reqId := id
    payload := status ++ "|Automatically " ++ status ++ " by " ++ userName }

/-- `ApprovalsPanel.handleDecision(id, status)`: snapshot the list,
optimistically filter the id out, await the decide POST; on success keep
the optimistic state and toast success; on failure toast an error and
restore the snapshot. -/
def approvalsHandleDecision (pendingRequests : List Request) (id : Nat)
    (status userName : String) (outcome : DecideOutcome) : DecideRun :=
  let originalRequests := pendingRequests
  let optimistic := optimisticApply pendingRequests id
  match outcome with
  | DecideOutcome.success =>
      { inFlightState := optimistic
        finalState := optimistic
        remoteCalls := [decideCall id status userName]
        toasts := ["Request " ++ status ++ " successfully!"] }
  | DecideOutcome.failure =>
      { inFlightState := optimistic
        finalState := originalRequests
        remoteCalls := [decideCall id status userName]
        toasts := ["Failed to mark request as " ++ status] }

/-- The decide call issued by `ChatPage.handleDecision`, with its
`{status, decision_note}` body. -/
def chatDecideCall (id : Nat) (status : String) : RemoteCall :=
  { endpoint := "approvals/decide"
    reqId := id
    payload := status ++ "|" ++ status ++ " via portal" }

/-- `ChatPage.handleDecision(id, status)`: await the decide call first;
on success filter the id out of `pendingApprovals` and toast success; on
failure toast "Failed to process" and leave the list untouched. -/
def chatHandleDecision (pendingApprovals : List Request) (id : Nat)
    (status : String) (outcome : DecideOutcome) : DecideRun :=
  let call : RemoteCall := chatDecideCall id status
  match outcome with
  | DecideOutcome.success =>
      { inFlightState := pendingApprovals
        finalState := pendingApprovals.filter (fun r => r.id != id)
        remoteCalls := [call]
        toasts := ["Request " ++ status ++ "!"] }
  | DecideOutcome.failure =>
      { inFlightState := pendingApprovals
        finalState := pendingApprovals
        remoteCalls := [call]
        toasts := ["Failed to process"] }

/-- `ChatPage` renders the pending-approvals section (and thus the
approve/reject buttons invoking `handleDecision`) only when
`isAuthority() && pendingApprovals.length > 0`. -/
def showPendingApprovalsSection (user : Option User)
    (pendingApprovals : List Request) : Bool :=
  isAuthority user && decide (pendingApprovals.length > 0)

/-- `ChatPage` fetches the pending approvals on the requests tab only
when `isAuthority()`. -/
def fetchesPendingOnRequestsTab (user : Option User) : Bool :=
  isAuthority user

/-- `DashboardPage` renders the Approvals tab button only when
`['manager','admin','hr','ceo'].includes(userInfo?.role)`. -/
def dashboardShowsApprovalsTab (role : Option Role) : Bool :=
  match role with
  | none => false
  | some r => decide (r ∈ [Role.manager, Role.admin, Role.hr, Role.ceo])

/-- A decide mutation that has been issued but has not yet settled:
`ApprovalsPanel.handleDecision` holds `originalRequests` (the rollback
snapshot) across the awaited POST. -/
structure InFlightDecide where
  reqId : Nat
  snapshot : List Request
deriving DecidableEq, Repr

/-- How the start of a mutation attempt is answered. The code's
mutation handlers have no in-flight bookkeeping and issue the remote
call whenever their local guard passes; `rejectedAlreadyInProgress`
exists to express the absence of an already-in-progress rejection, and
`skipped` is the mark-read handlers' `!is_read` guard declining. -/
inductive StartResult
  | issued
  | rejectedAlreadyInProgress
  | skipped
deriving DecidableEq, Repr

/-- `ApprovalsPanel` component state together with the in-flight decide
mutations and the log of remote calls issued so far. -/
structure PanelState where
  pendingRequests : List Request
  inFlight : List InFlightDecide
  remoteLog : List RemoteCall
deriving DecidableEq, Repr

/-- The synchronous part of `ApprovalsPanel.handleDecision` up to and
including issuing the decide POST: snapshot `originalRequests`, filter
the id out of the list, and fire the remote call. There is no check
against `inFlight`, so every invocation issues a call. -/
def decideStart (s : PanelState) (id : Nat) (status userName : String) :
    PanelState × StartResult :=
  let originalRequests := s.pendingRequests
  ({ pendingRequests := optimisticApply s.pendingRequests id
     inFlight := s.inFlight ++ [{ reqId := id, snapshot := originalRequests }]
     remoteLog := s.remoteLog ++ [decideCall id status userName] },
   StartResult.issued)

/-- The settling part of `ApprovalsPanel.handleDecision`: on success the
optimistic state stands, on failure `setPendingRequests(originalRequests)`
restores the snapshot held by the in-flight record. -/
def decideSettle (s : PanelState) (fl : InFlightDecide)
    (outcome : DecideOutcome) : PanelState :=
  { s with
      inFlight := s.inFlight.filter (fun f => f != fl)
      pendingRequests :=
        match outcome with
        | DecideOutcome.success => s.pendingRequests
        | DecideOutcome.failure => fl.snapshot }

/-- `ChatPage` approvals state together with the in-flight decide calls
and the log of remote calls issued so far. -/
structure ChatApprovalsState where
  pendingApprovals : List Request
  inFlight : List Nat
  remoteLog : List RemoteCall
deriving DecidableEq, Repr

/-- The synchronous part of `ChatPage.handleDecision` up to and
including issuing the decide call: nothing is applied locally before
the await, and there is no check against `inFlight`, so every
invocation — also a duplicate on an id whose first call has not
settled — issues a call. -/
def chatDecideStart (s : ChatApprovalsState) (id : Nat) (status : String) :
    ChatApprovalsState × StartResult :=
  ({ s with
      inFlight := s.inFlight ++ [id]
      remoteLog := s.remoteLog ++ [chatDecideCall id status] },
   StartResult.issued)

/-- A notification list together with the in-flight mark-read calls and
the log of remote calls issued so far, shared shape of the two
mark-read click handlers. -/
structure NotifClickState where
  notifications : List Notification
  inFlight : List Nat
  remoteLog : List String
deriving DecidableEq, Repr

/-- The synchronous part of a `ChatPage` notification click up to and
including issuing `markRead`: the `!n.is_read` guard is checked against
the cached record, which is updated only when the call later succeeds —
so while the first call is in flight the record still reads unread and
a second click issues another call; there is no in-flight check. -/
def chatNotifClickStart (s : NotifClickState) (id : Nat) :
    NotifClickState × StartResult :=
  match s.notifications.find? (fun n => n.id == id) with
  | none => (s, StartResult.skipped)
  | some n =>
      if n.is_read then (s, StartResult.skipped)
      else
        ({ s with
            inFlight := s.inFlight ++ [id]
            remoteLog := s.remoteLog ++ ["notifications.markRead/" ++ toString id] },
         StartResult.issued)

/-- The synchronous part of a `DashboardPage` notification click up to
and including the `markAsRead` POST: the `!notif.is_read` guard reads
the cached record, which changes only via the refetch after the POST
succeeds — so a duplicate click while the first POST is in flight
issues another POST; there is no in-flight check. -/
def dashMarkAsReadStart (s : NotifClickState) (id : Nat) :
    NotifClickState × StartResult :=
  match s.notifications.find? (fun n => n.id == id) with
  | none => (s, StartResult.skipped)
  | some n =>
      if n.is_read then (s, StartResult.skipped)
      else
        ({ s with
            inFlight := s.inFlight ++ [id]
            remoteLog := s.remoteLog ++ ["api/notifications/" ++ toString id ++ "/read"] },
         StartResult.issued)

/-- The two lists `DashboardPage` refreshes on its poll interval. -/
structure DashboardState where
  myRequests : List Request
  notifications : List Notification
deriving DecidableEq, Repr

/-- The whole UI surface: the dashboard lists, the `ApprovalsPanel`
pending list (separate component state the poll never writes), whether
the poll interval is installed, and the fetches attempted so far. -/
structure SurfaceState where
  dashboard : DashboardState
  approvalsPanelPending : List Request
  schedulerActive : Bool
  fetchLog : List String
deriving DecidableEq, Repr

/-- `DashboardPage.fetchNotifications`: on success replace the list with
the response data; on failure only `console.error`, leaving the list. -/
def fetchNotificationsInto (s : DashboardState)
    (result : Option (List Notification)) : DashboardState :=
  match result with
  | some data => { s with notifications := data }
  | none => s

/-- `DashboardPage.fetchMyRequests`: on success replace the list with
the response data; on failure only `console.error`, leaving the list. -/
def fetchMyRequestsInto (s : DashboardState)
    (result : Option (List Request)) : DashboardState :=
  match result with
  | some data => { s with myRequests := data }
  | none => s

/-- One tick of the `setInterval` in `DashboardPage`: attempt both
refreshes (each outcome passed explicitly, `none` meaning the request
failed). The tick neither clears the interval nor touches the
`ApprovalsPanel` state. -/
def pollTick (s : SurfaceState) (nres : Option (List Notification))
    (rres : Option (List Request)) : SurfaceState :=
  { s with
      dashboard := fetchMyRequestsInto (fetchNotificationsInto s.dashboard nres) rres
      fetchLog := s.fetchLog ++ ["notifications.list", "approvals.listMine"] }

/-- Lookup of a request record by id in a cached list. -/
def findRequest (id : Nat) (l : List Request) : Option Request :=
  l.find? (fun r => r.id == id)

/-- The local map applied by `ChatPage` after `markRead` succeeds:
`p.map(x => x.id === n.id ? { ...x, is_read: true } : x)`. -/
def markReadLocal (ns : List Notification) (id : Nat) : List Notification :=
  ns.map (fun x => if x.id == id then { x with is_read := true } else x)

/-- A click on a notification in `ChatPage`: if the record is unread,
issue `markRead` (second component counts the remote calls); when that
call succeeds, set `is_read` locally. An already-read record is left
alone with no call. -/
def clickNotification (ns : List Notification) (id : Nat)
    (remoteOk : Bool) : List Notification × Nat :=
  match ns.find? (fun n => n.id == id) with
  | none => (ns, 0)
  | some n =>
      if n.is_read then (ns, 0)
      else if remoteOk then (markReadLocal ns id, 1) else (ns, 1)

/-- A click on a notification in `DashboardPage`: guarded by
`!notif.is_read`; `markAsRead` POSTs and then refetches the whole list
(`server` is the refetched list, `none` meaning the POST failed and the
catch block only logs). -/
def dashNotifClick (ns : List Notification) (id : Nat)
    (server : Option (List Notification)) : List Notification × Nat :=
  match ns.find? (fun n => n.id == id) with
  | none => (ns, 0)
  | some n =>
      if n.is_read then (ns, 0)
      else
        match server with
        | some fresh => (fresh, 1)
        | none => (ns, 1)

/-- A chat transcript entry (`{ role, text, time }`). -/
structure ChatMsg where
  role : String
  text : String
  time : Nat
deriving DecidableEq, Repr

/-- The ordered effects of `ChatPage.send`. -/
inductive ChatEvent
  | appendMsg (m : ChatMsg)
  | remoteSend (message : String)
deriving DecidableEq, Repr

/-- Outcome of the awaited `chatAPI.send` call. -/
inductive ChatOutcome
  | reply (text : String)
  | failure
deriving DecidableEq, Repr

/-- The assistant message appended when the chat call settles: the reply
on success, the fixed apology on failure. -/
def assistantMsg (outcome : ChatOutcome) (t2 : Nat) : ChatMsg :=
  match outcome with
  | ChatOutcome.reply r => { role := "ai", text := r, time := t2 }
  | ChatOutcome.failure =>
      { role := "ai"
        text := "Sorry, I encountered an issue. Please try again."
        time := t2 }

/-- `ChatPage.send(text)`: bail out on an empty message; otherwise
append the user message, issue the remote call, and append exactly one
assistant message when it settles. Returns the new transcript and the
ordered effect trace. -/
def sendMsg (msgs : List ChatMsg) (msg : String) (outcome : ChatOutcome)
    (t1 t2 : Nat) : List ChatMsg × List ChatEvent :=
  if msg = "" then (msgs, [])
  else
    let userMsg : ChatMsg := { role := "user", text := msg, time := t1 }
    (msgs ++ [userMsg, assistantMsg outcome t2],
     [ChatEvent.appendMsg userMsg, ChatEvent.remoteSend msg,
      ChatEvent.appendMsg (assistantMsg outcome t2)])

/-- A `DashboardPage` transcript entry (`{ id, type, text, timestamp }`,
with `type` human or ai). -/
structure DashMsg where
  id : Nat
  type : String
  text : String
  timestamp : Nat
deriving DecidableEq, Repr

/-- The ordered effects of `DashboardPage.handleSend`. -/
inductive DashChatEvent
  | appendMsg (m : DashMsg)
  | remoteSend (message : String)
deriving DecidableEq, Repr

/-- The assistant message `DashboardPage.handleSend` appends when the
chat call settles: the reply on success, the fixed connection apology
on failure, with id `Date.now() + 1`. -/
def dashAssistantMsg (outcome : ChatOutcome) (mid t2 : Nat) : DashMsg :=
  match outcome with
  | ChatOutcome.reply r => { id := mid, type := "ai", text := r, timestamp := t2 }
  | ChatOutcome.failure =>
      { id := mid
        type := "ai"
        text := "I'm sorry, I'm having trouble connecting to the system right now. Please try again."
        timestamp := t2 }

/-- Strip leading whitespace characters from a character list. -/
def dropLeadingWs : List Char → List Char
  | [] => []
  | c :: rest => if c.isWhitespace then dropLeadingWs rest else c :: rest

/-- JS `String.prototype.trim`: strip leading and trailing whitespace. -/
def jsTrim (s : String) : String :=
  String.mk ((dropLeadingWs ((dropLeadingWs s.data).reverse)).reverse)

/-- `DashboardPage.handleSend`: bail out when the trimmed input is
empty; otherwise append the (untrimmed) user message, issue the remote
chat call, and append exactly one assistant message when it settles.
Returns the new transcript and the ordered effect trace. -/
def handleSend (messages : List DashMsg) (inputText : String)
    (outcome : ChatOutcome) (mid t1 t2 : Nat) :
    List DashMsg × List DashChatEvent :=
  if jsTrim inputText = "" then (messages, [])
  else
    let newMsg : DashMsg := { id := mid, type := "human", text := inputText, timestamp := t1 }
    (messages ++ [newMsg, dashAssistantMsg outcome (mid + 1) t2],
     [DashChatEvent.appendMsg newMsg, DashChatEvent.remoteSend inputText,
      DashChatEvent.appendMsg (dashAssistantMsg outcome (mid + 1) t2)])

/-- `OnboardingPage` state. Code step indices: 0 = register,
1 = policies, 2 = database, 3 = provision (the spec numbers the same
steps 1..4: register, attach data source, attach policy, provision). -/
structure OnboardingState where
  step : Nat
  companyId : Option String
  policies : List String
  databases : List Nat
  provisionResult : Option String
  toastErrors : List String
  remoteLog : List String
deriving DecidableEq, Repr

/-- The state the public registration flow starts in
(`isPublic` route: `step = 0`, no company id). -/
def initialPublicState : OnboardingState :=
  { step := 0
    companyId := none
    policies := []
    databases := []
    provisionResult := none
    toastErrors := []
    remoteLog := [] }

/-- Outcome of the awaited `companyAPI.register` call. -/
inductive RegisterOutcome
  | success (newId : String)
  | failure (detail : String)
deriving DecidableEq, Repr

/-- `OnboardingPage.registerCompany`: await the register call; on
success capture the company id and advance to step 1; on failure only
toast the error, leaving the id and the step untouched. -/
def registerCompany (s : OnboardingState)
    (outcome : RegisterOutcome) : OnboardingState :=
  let s := { s with remoteLog := s.remoteLog ++ ["company.register"] }
  match outcome with
  | RegisterOutcome.success newId => { s with companyId := some newId, step := 1 }
  | RegisterOutcome.failure detail =>
      { s with toastErrors := s.toastErrors ++ [detail] }

/-- The step indicator buttons: `onClick={() => (i === 0 || companyId)
&& setStep(i)}` — without a company id only step 0 is reachable. -/
def canNavigateToStep (s : OnboardingState) (i : Nat) : Bool :=
  i == 0 || s.companyId.isSome

/-- Which kind of policy the addPolicy form submits. -/
inductive PolicyType
  | text
  | document
deriving DecidableEq, Repr

/-- Outcome of an awaited onboarding step call. -/
inductive StepOutcome
  | success
  | failure (detail : String)
deriving DecidableEq, Repr

/-- `OnboardingPage.addPolicy`: upload a text or document policy; on
success refetch the policy list; on failure only toast the error. The
company id and the connected databases are never written. -/
def addPolicy (s : OnboardingState) (ptype : PolicyType)
    (outcome : StepOutcome) (refetched : List String) : OnboardingState :=
  let endpoint :=
    match ptype with
    | PolicyType.text => "company.addTextPolicy"
    | PolicyType.document => "company.uploadDocPolicy"
  let s := { s with remoteLog := s.remoteLog ++ [endpoint] }
  match outcome with
  | StepOutcome.success =>
      { s with
          policies := refetched
          remoteLog := s.remoteLog ++ ["company.getPolicies"] }
  | StepOutcome.failure detail =>
      { s with toastErrors := s.toastErrors ++ [detail] }

/-- Outcome of the awaited `companyAPI.provisionEmployees` call. -/
inductive ProvisionOutcome
  | success (result : String)
  | failure (detail : String)
deriving DecidableEq, Repr

/-- `OnboardingPage.provisionEmployees(dbId)`: await the provisioning
call; on success record the result and jump to step 3; on failure only
toast the error. -/
def provisionEmployees (s : OnboardingState) (dbId : Nat)
    (outcome : ProvisionOutcome) : OnboardingState :=
  let s := { s with
    remoteLog := s.remoteLog ++ ["company.provisionEmployees/" ++ toString dbId] }
  match outcome with
  | ProvisionOutcome.success result =>
      { s with provisionResult := some result, step := 3 }
  | ProvisionOutcome.failure detail =>
      { s with toastErrors := s.toastErrors ++ [detail] }

/-- The Provision button is rendered on every connected database card. -/
def provisionButtonShown (s : OnboardingState) (dbId : Nat) : Bool :=
  decide (dbId ∈ s.databases)

/-- The longest leading run of decimal digits of a character list. -/
def takeDigits : List Char → List Char
  | [] => []
  | c :: cs => if c.isDigit then c :: takeDigits cs else []

/-- The first maximal run of decimal digits in a character list, as
matched by the JS regex `/\d+/`. -/
def firstRun : List Char → Option (List Char)
  | [] => none
  | c :: cs => if c.isDigit then some (c :: takeDigits cs) else firstRun cs

/-- Decimal value of a digit character. -/
def digitVal (c : Char) : Nat :=
  c.toNat - 48

/-- Decimal value of a digit run, as computed by JS `parseInt`. -/
def digitsToNat (ds : List Char) : Nat :=
  ds.foldl (fun acc c => acc * 10 + digitVal c) 0

/-- `String(v).match(/\d+/)` followed by `parseInt(match[0])`: the value
of the first decimal-digit run of a string, if any. -/
def firstDigitRun (s : String) : Option Nat :=
  (firstRun s.data).map digitsToNat

/-- JS `String(n).padStart(3, '0')`: left-pad with zeros to at least
three characters. -/
def padStart3 (s : String) : String :=
  if s.length ≥ 3 then s else String.mk (List.replicate (3 - s.length) '0') ++ s

/-- An employee row from the connected sheet: an association list from
column header to cell value. -/
def EmpRec : Type :=
  List (String × String)

/-- JS property read `String(emp[col])`: a missing property reads as
`undefined`, which `String(...)` renders as "undefined". -/
def getField (emp : EmpRec) (col : String) : String :=
  match emp.find? (fun p => p.1 == col) with
  | some p => p.2
  | none => "undefined"

/-- JS object assignment `m[k] = v` on an association-list model:
overwrite the pairs carrying `k`, or append the binding if absent. -/
def setKey (m : List (String × String)) (k v : String) :
    List (String × String) :=
  if m.any (fun p => p.1 == k) then
    m.map (fun p => if p.1 == k then (k, v) else p)
  else m ++ [(k, v)]

/-- `databases[0]?.schema_map?.primary_key || 'Employee ID'`: the fall
back also fires on the falsy empty string. -/
def primaryKeyCol (pk : Option String) : String :=
  match pk with
  | none => "Employee ID"
  | some k => if k == "" then "Employee ID" else k

/-- The auto-id loop of `SettingsPanel.openAddModal`: fold `Math.max`
over the first digit run of each employee's primary-key value (rows
without a digit run are skipped), then render `EMP` + the successor,
padded; with no employees the literal "EMP001". -/
def genEmpId (pkCol : String) (employees : List EmpRec) : String :=
  if employees.length > 0 then
    let maxNum := employees.foldl
      (fun acc emp =>
        match firstDigitRun (getField emp pkCol) with
        | some k => max acc k
        | none => acc) 0
    "EMP" ++ padStart3 (toString (maxNum + 1))
  else "EMP001"

/-- `getAllHeaders()`: `Object.keys(employees[0])`, empty when the sheet
has no rows. -/
def headersOf (employees : List EmpRec) : List String :=
  match employees with
  | [] => []
  | e :: _ => e.map (fun p => p.1)

/-- `SettingsPanel.openAddModal`'s `initialData`: every header mapped to
the empty string, then the primary-key column set to the generated id. -/
def openAddModalInit (pkCol : String) (employees : List EmpRec) :
    List (String × String) :=
  let base := (headersOf employees).map (fun h => (h, ""))
  setKey base pkCol (genEmpId pkCol employees)

/-- Reading a field of the modal's `initialData` object. -/
def initField (m : List (String × String)) (k : String) : Option String :=
  (m.find? (fun p => p.1 == k)).map (fun p => p.2)

/-- Modelled from the claim's words, for comparison with the code: the
maximum over the employees' primary-key values of the first
decimal-digit run (employees without one contributing nothing, the
empty maximum being 0). -/
def specMaxFirstRun (pkCol : String) (employees : List EmpRec) : Nat :=
  ((employees.map (fun emp => getField emp pkCol)).filterMap firstDigitRun).foldr max 0

/-- Modelled from the claim's words: `EMP` followed by one plus the
maximum first digit run, left-padded with zeros to at least three
digits; `EMP001` for an empty employee list. -/
def specPrefillId (pkCol : String) (employees : List EmpRec) : String :=
  match employees with
  | [] => "EMP001"
  | _ :: _ => "EMP" ++ padStart3 (toString (specMaxFirstRun pkCol employees + 1))

/-- A sample pending request used to instantiate theorems. -/
def req1 : Request :=
  { id := 1
    status := "pending"
    request_type := "leave"
    employee_name := "Ann"
    employee_id := "EMP001"
    context := "family event"
    summary_report := "two days leave"
    created_at := 10 }

/-- A sample user whose role is `employee`. -/
def eveEmployee : User :=
  { role := Role.employee, employee_name := "Eve", company_id := "c1" }

/-- A sample unread notification. -/
def notif1 : Notification :=
  { id := 5, title := "Decided", message := "approved", is_read := false, created_at := 3 }

/-- `notif1` as the backend returns it once marked read. -/
def notif1Read : Notification :=
  { notif1 with is_read := true }

/-- A sample approvals-panel state holding one pending request. -/
def panel0 : PanelState :=
  { pendingRequests := [req1], inFlight := [], remoteLog := [] }

/-- `panel0` right after a decide on id 1 was started (still in flight). -/
def panel1 : PanelState :=
  (decideStart panel0 1 "approved" "Mia").1

/-- A sample `ChatPage` approvals state holding one pending request. -/
def chatApprovals0 : ChatApprovalsState :=
  { pendingApprovals := [req1], inFlight := [], remoteLog := [] }

/-- `chatApprovals0` right after a decide on id 1 was issued (still in
flight). -/
def chatApprovals1 : ChatApprovalsState :=
  (chatDecideStart chatApprovals0 1 "approved").1

/-- A sample notification-click state holding one unread notification. -/
def notifClick0 : NotifClickState :=
  { notifications := [notif1], inFlight := [], remoteLog := [] }

/-- `notifClick0` right after a `ChatPage` mark-read on id 5 was issued
(still in flight, the cached record still unread). -/
def chatNotif1 : NotifClickState :=
  (chatNotifClickStart notifClick0 5).1

/-- `notifClick0` right after a `DashboardPage` mark-read POST on id 5
was issued (still in flight, the cached record still unread). -/
def dashNotif1 : NotifClickState :=
  (dashMarkAsReadStart notifClick0 5).1

/-- A sample surface state in which a decide mutation on id 1 is in
flight in the approvals panel. -/
def surfaceSample : SurfaceState :=
  { dashboard := { myRequests := [], notifications := [notif1] }
    approvalsPanelPending := optimisticApply [req1] 1
    schedulerActive := true
    fetchLog := [] }

/-- A sample onboarding state after registration and a database
connection (company id captured, one data source attached). -/
def onboarded : OnboardingState :=
  { step := 2
    companyId := some "c1"
    policies := []
    databases := [7]
    provisionResult := none
    toastErrors := []
    remoteLog := ["company.register", "company.addDatabase"] }

/-- A sample employee row keyed by the default primary-key column. -/
def empRow1 : EmpRec :=
  [("Employee ID", "EMP003"), ("Name", "Ann")]

/-- Mapping a function that does not change whether an element matches
commutes with the lookup. -/
theorem find?_map_pred {α : Type} (p : α → Bool) (f : α → α)
    (hf : ∀ x, p (f x) = p x) (l : List α) :
    (l.map f).find? p = (l.find? p).map f := by
  induction l with
  | nil => rfl
  | cons x xs ih =>
    rw [List.map_cons, List.find?_cons, List.find?_cons, hf x]
    cases hx : p x with
    | true => rfl
    | false => exact ih

/-- Finding a notification by id in the locally marked list picks the
marked version of whatever the original lookup found. -/
theorem find_markReadLocal (ns : List Notification) (id : Nat) :
    (markReadLocal ns id).find? (fun n => n.id == id)
      = (ns.find? (fun n => n.id == id)).map
          (fun x => if x.id == id then { x with is_read := true } else x) :=
  find?_map_pred _ _
    (fun x => by
      by_cases hx : (x.id == id) = true
      · rw [if_pos hx]
      · rw [if_neg hx]) ns

/-- The JS `forEach`/`Math.max` accumulation over the optional digit
runs equals the fold of `max` over the runs that exist. -/
theorem foldl_max_filterMap {α : Type} (f : α → Option Nat) (l : List α) (a : Nat) :
    l.foldl (fun acc x => match f x with | some k => max acc k | none => acc) a
      = max a ((l.filterMap f).foldr max 0) := by
  induction l generalizing a with
  | nil => simp
  | cons x xs ih =>
    cases hfx : f x with
    | none => simp [List.filterMap_cons, hfx, ih]
    | some k => simp [List.filterMap_cons, hfx, ih, Nat.max_assoc]

/-- The `setKey` overwrite does not change whether a pair matches a key
lookup. -/
theorem setKey_pred_same (k v h : String) (x : String × String) :
    ((if x.1 == k then (k, v) else x).1 == h) = (x.1 == h) := by
  by_cases hx : (x.1 == k) = true
  · rw [if_pos hx]
    have hk : x.1 = k := by simpa using hx
    rw [hk]
  · rw [if_neg hx]

/-- Setting a key in the association-list object makes that key read
back the written value. -/
theorem initField_setKey_same (m : List (String × String)) (k v : String) :
    initField (setKey m k v) k = some v := by
  unfold initField setKey
  by_cases hany : m.any (fun p => p.1 == k) = true
  · rw [if_pos hany, find?_map_pred _ _ (setKey_pred_same k v k) m]
    obtain ⟨x, hxmem, hxk⟩ := List.any_eq_true.mp hany
    cases hfound : m.find? (fun p => p.1 == k) with
    | none => exact absurd hxk (List.find?_eq_none.mp hfound x hxmem)
    | some y =>
        have hy : y.1 = k := by simpa using List.find?_some hfound
        simp [hy]
  · rw [if_neg hany, List.find?_append]
    have hnone : m.find? (fun p => p.1 == k) = none := by
      rw [List.find?_eq_none]
      intro x hx hc
      exact hany (List.any_eq_true.mpr ⟨x, hx, hc⟩)
    rw [hnone]
    simp [List.find?_cons]

/-- Setting the primary-key binding leaves every other key's reading
unchanged. -/
theorem initField_setKey_other (m : List (String × String)) (k v h : String)
    (hne : h ≠ k) :
    initField (setKey m k v) h = initField m h := by
  unfold initField setKey
  by_cases hany : m.any (fun p => p.1 == k) = true
  · rw [if_pos hany, find?_map_pred _ _ (setKey_pred_same k v h) m]
    cases hfm : m.find? (fun p => p.1 == h) with
    | none => rfl
    | some y =>
        have hyh : y.1 = h := by simpa using List.find?_some hfm
        have hyk : ¬y.1 = k := by
          rw [hyh]
          exact hne
        simp [hyk]
  · rw [if_neg hany, List.find?_append]
    cases hfm : m.find? (fun p => p.1 == h) with
    | some y => rfl
    | none =>
        have hk : (k == h) = false := by simp [Ne.symm hne]
        simp [List.find?_cons, hk]

/-- In the header-initialized object every present header reads the
empty string. -/
theorem initField_base (headers : List String) (h : String)
    (hmem : h ∈ headers) :
    initField (headers.map (fun x => (x, ""))) h = some "" := by
  induction headers with
  | nil => cases hmem
  | cons x xs ih =>
    by_cases hx : x = h
    · simp [initField, List.find?, hx]
    · cases hmem with
      | head => exact absurd rfl hx
      | tail _ hm =>
          simp only [initField, List.map_cons, List.find?] at ih ⊢
          rw [show ((x, "").1 == h) = false by simpa using hx]
          exact ih hm

/-- The modal's generated id agrees with the claim-side description. -/
theorem genEmpId_eq_spec (pkCol : String) (employees : List EmpRec) :
    genEmpId pkCol employees = specPrefillId pkCol employees := by
  cases employees with
  | nil => rfl
  | cons e es =>
    unfold genEmpId specPrefillId specMaxFirstRun
    rw [if_pos (by simp)]
    rw [List.filterMap_map]
    rw [foldl_max_filterMap (fun emp => firstDigitRun (getField emp pkCol)) (e :: es) 0]
    rw [Nat.zero_max]
    rfl

/-- C1: for every request R cached with status pending, if the decide
handler is invoked with an approved/rejected outcome and the remote
decide call fails, the cached pending-approvals state after the failure
handler equals the pre-mutation snapshot exactly — R is present again
with the same status and fields (shown for both decide handlers). -/
theorem C1_rollback_correctness (pending : List Request) (R : Request)
    (status userName : String)
    (hmem : R ∈ pending) (hstat : R.status = "pending")
    (hout : status = "approved" ∨ status = "rejected") :
    (approvalsHandleDecision pending R.id status userName DecideOutcome.failure).finalState
      = pending
    ∧ R ∈ (approvalsHandleDecision pending R.id status userName DecideOutcome.failure).finalState
    ∧ (chatHandleDecision pending R.id status DecideOutcome.failure).finalState = pending := by
  refine ⟨rfl, ?_, rfl⟩
  exact hmem

/-- Witness for C1 at a concrete pending request. -/
theorem C1_rollback_correctness_witness :
    (approvalsHandleDecision [req1] req1.id "approved" "Eve" DecideOutcome.failure).finalState
      = [req1]
    ∧ req1 ∈ (approvalsHandleDecision [req1] req1.id "approved" "Eve" DecideOutcome.failure).finalState
    ∧ (chatHandleDecision [req1] req1.id "approved" DecideOutcome.failure).finalState = [req1] :=
  C1_rollback_correctness [req1] req1 "approved" "Eve"
    (List.mem_singleton.mpr rfl) rfl (Or.inl rfl)

/-- C2 counterexample: for a concrete user whose role is employee, the
decide operation as implemented performs one Remote Gateway call (not
zero), mutates the cache on success (not zero mutations), and its only
failure message is "Failed to process", never a Forbidden — the
handlers take no role input at all. -/
theorem C2_counterexample :
    eveEmployee.role = Role.employee
    ∧ (chatHandleDecision [req1] req1.id "approved" DecideOutcome.success).remoteCalls.length = 1
    ∧ (chatHandleDecision [req1] req1.id "approved" DecideOutcome.success).finalState ≠ [req1]
    ∧ (approvalsHandleDecision [req1] req1.id "approved" eveEmployee.employee_name
        DecideOutcome.success).remoteCalls.length = 1
    ∧ (chatHandleDecision [req1] req1.id "approved" DecideOutcome.failure).toasts
        = ["Failed to process"] := by
  refine ⟨rfl, rfl, ?_, rfl, rfl⟩
  decide

/-- C2 amended: for every user whose role is employee, `isAuthority` is
false, so the UI exposes no decide affordance (the pending-approvals
section with the approve/reject buttons is not rendered, the pending
fetch is skipped, and the dashboard hides the approvals tab); the
decide handler itself performs no role check. -/
theorem C2_capability_gating (u : User) (hrole : u.role = Role.employee)
    (pending : List Request) :
    isAuthority (some u) = false
    ∧ showPendingApprovalsSection (some u) pending = false
    ∧ fetchesPendingOnRequestsTab (some u) = false
    ∧ dashboardShowsApprovalsTab (some u.role) = false := by
  have hauth : isAuthority (some u) = false := by
    unfold isAuthority authorityRoles
    show decide (u.role ∈ [Role.manager, Role.hr, Role.admin, Role.ceo]) = false
    rw [hrole]
    decide
  refine ⟨hauth, ?_, hauth, ?_⟩
  · unfold showPendingApprovalsSection
    rw [hauth]
    rfl
  · unfold dashboardShowsApprovalsTab
    rw [hrole]
    decide

/-- Witness for C2's amended theorem at the concrete employee user. -/
theorem C2_capability_gating_witness :
    isAuthority (some eveEmployee) = false
    ∧ showPendingApprovalsSection (some eveEmployee) [req1] = false
    ∧ fetchesPendingOnRequestsTab (some eveEmployee) = false
    ∧ dashboardShowsApprovalsTab (some eveEmployee.role) = false :=
  C2_capability_gating eveEmployee rfl [req1]

/-- C3: while an optimistic decide mutation on id X is in flight in the
approvals panel, no poll tick alters the cached pending-approvals
record for X (the tick never writes that store at all); the stores the
poll does own are fully replaced on a successful tick. -/
theorem C3_lock_exclusion (s : SurfaceState) (X : Nat)
    (nres : Option (List Notification)) (rres : Option (List Request))
    (hflight : ∃ original, s.approvalsPanelPending = optimisticApply original X) :
    findRequest X (pollTick s nres rres).approvalsPanelPending
      = findRequest X s.approvalsPanelPending
    ∧ (pollTick s nres rres).approvalsPanelPending = s.approvalsPanelPending
    ∧ ∀ ns2 rs2,
        (pollTick s (some ns2) (some rs2)).dashboard.notifications = ns2
        ∧ (pollTick s (some ns2) (some rs2)).dashboard.myRequests = rs2 :=
  ⟨rfl, rfl, fun _ _ => ⟨rfl, rfl⟩⟩

/-- Witness for C3 at a concrete in-flight state. -/
theorem C3_lock_exclusion_witness :
    findRequest 1 (pollTick surfaceSample none none).approvalsPanelPending
      = findRequest 1 surfaceSample.approvalsPanelPending :=
  (C3_lock_exclusion surfaceSample 1 none none ⟨[req1], rfl⟩).1

/-- C4 counterexample: for each mutation handler — the approvals-panel
decide, the ChatPage decide, the ChatPage mark-read click and the
DashboardPage mark-read click — a second identical attempt on the same
id issued while the first is still in flight is not rejected with
AlreadyInProgress; it is issued, so two remote calls are in flight
concurrently. -/
theorem C4_counterexample :
    ((decideStart panel1 1 "approved" "Mia").2 ≠ StartResult.rejectedAlreadyInProgress
      ∧ (decideStart panel1 1 "approved" "Mia").1.remoteLog.length = 2
      ∧ panel1.inFlight ≠ [])
    ∧ ((chatDecideStart chatApprovals1 1 "approved").2 ≠ StartResult.rejectedAlreadyInProgress
      ∧ (chatDecideStart chatApprovals1 1 "approved").1.remoteLog.length = 2
      ∧ chatApprovals1.inFlight ≠ [])
    ∧ ((chatNotifClickStart chatNotif1 5).2 = StartResult.issued
      ∧ (chatNotifClickStart chatNotif1 5).1.remoteLog.length = 2
      ∧ chatNotif1.inFlight ≠ [])
    ∧ ((dashMarkAsReadStart dashNotif1 5).2 = StartResult.issued
      ∧ (dashMarkAsReadStart dashNotif1 5).1.remoteLog.length = 2
      ∧ dashNotif1.inFlight ≠ []) := by
  refine ⟨⟨?_, rfl, ?_⟩, ⟨?_, rfl, ?_⟩, ⟨?_, rfl, ?_⟩, ⟨?_, rfl, ?_⟩⟩ <;> decide

/-- C4 amended: none of the mutation handlers keeps in-flight
bookkeeping. Both decide handlers issue their remote call on every
invocation; both mark-read handlers never answer AlreadyInProgress, and
whenever their `!is_read` guard passes — which it still does while a
first call on the id is in flight, since the cached record changes only
at settle — they issue the remote call again. -/
theorem C4_no_inflight_rejection (s : PanelState) (cs : ChatApprovalsState)
    (ns : NotifClickState) (id : Nat) (status userName : String) :
    ((decideStart s id status userName).2 = StartResult.issued
      ∧ (decideStart s id status userName).1.remoteLog
          = s.remoteLog ++ [decideCall id status userName])
    ∧ ((chatDecideStart cs id status).2 = StartResult.issued
      ∧ (chatDecideStart cs id status).1.remoteLog
          = cs.remoteLog ++ [chatDecideCall id status])
    ∧ ((chatNotifClickStart ns id).2 ≠ StartResult.rejectedAlreadyInProgress
      ∧ ∀ n, ns.notifications.find? (fun x => x.id == id) = some n →
          n.is_read = false →
          (chatNotifClickStart ns id).2 = StartResult.issued
          ∧ (chatNotifClickStart ns id).1.remoteLog
              = ns.remoteLog ++ ["notifications.markRead/" ++ toString id])
    ∧ ((dashMarkAsReadStart ns id).2 ≠ StartResult.rejectedAlreadyInProgress
      ∧ ∀ n, ns.notifications.find? (fun x => x.id == id) = some n →
          n.is_read = false →
          (dashMarkAsReadStart ns id).2 = StartResult.issued
          ∧ (dashMarkAsReadStart ns id).1.remoteLog
              = ns.remoteLog ++ ["api/notifications/" ++ toString id ++ "/read"]) := by
  refine ⟨⟨rfl, rfl⟩, ⟨rfl, rfl⟩, ⟨?_, ?_⟩, ⟨?_, ?_⟩⟩
  · cases hf : ns.notifications.find? (fun x => x.id == id) with
    | none => simp [chatNotifClickStart, hf]
    | some n =>
        by_cases hr : n.is_read = true <;> simp [chatNotifClickStart, hf, hr]
  · intro n hf hr
    constructor <;> simp [chatNotifClickStart, hf, hr]
  · cases hf : ns.notifications.find? (fun x => x.id == id) with
    | none => simp [dashMarkAsReadStart, hf]
    | some n =>
        by_cases hr : n.is_read = true <;> simp [dashMarkAsReadStart, hf, hr]
  · intro n hf hr
    constructor <;> simp [dashMarkAsReadStart, hf, hr]

/-- Witness for C4's amended theorem at concrete states: every handler
issues its call, the mark-read ones with the guard discharged at an
unread cached record. -/
theorem C4_no_inflight_rejection_witness :
    (decideStart panel0 1 "approved" "Mia").2 = StartResult.issued
    ∧ (chatDecideStart chatApprovals0 1 "approved").2 = StartResult.issued
    ∧ (chatNotifClickStart notifClick0 5).2 = StartResult.issued
    ∧ (dashMarkAsReadStart notifClick0 5).2 = StartResult.issued :=
  ⟨(C4_no_inflight_rejection panel0 chatApprovals0 notifClick0 1 "approved" "Mia").1.1,
   (C4_no_inflight_rejection panel0 chatApprovals0 notifClick0 1 "approved" "Mia").2.1.1,
   ((C4_no_inflight_rejection panel0 chatApprovals0 notifClick0 5 "approved" "Mia").2.2.1.2
      notif1 (by decide) rfl).1,
   ((C4_no_inflight_rejection panel0 chatApprovals0 notifClick0 5 "approved" "Mia").2.2.2.2
      notif1 (by decide) rfl).1⟩

/-- C5: when step 1 (register company) fails, no company id is
captured, the flow stays at step 0, the only remote call attempted is
the register call (steps 2-4 are never attempted, and their UI steps
are unreachable), and the terminal state records only the step-1
failure. -/
theorem C5_provisioning_fatality (detail : String) :
    (registerCompany initialPublicState (RegisterOutcome.failure detail)).companyId = none
    ∧ (registerCompany initialPublicState (RegisterOutcome.failure detail)).step = 0
    ∧ (registerCompany initialPublicState (RegisterOutcome.failure detail)).remoteLog
        = ["company.register"]
    ∧ (registerCompany initialPublicState (RegisterOutcome.failure detail)).toastErrors
        = [detail]
    ∧ canNavigateToStep (registerCompany initialPublicState (RegisterOutcome.failure detail)) 1
        = false
    ∧ canNavigateToStep (registerCompany initialPublicState (RegisterOutcome.failure detail)) 2
        = false
    ∧ canNavigateToStep (registerCompany initialPublicState (RegisterOutcome.failure detail)) 3
        = false :=
  ⟨rfl, rfl, rfl, rfl, rfl, rfl, rfl⟩

/-- Witness for C5 at a concrete failing registration. -/
theorem C5_provisioning_fatality_witness :
    (registerCompany initialPublicState (RegisterOutcome.failure "bad fields")).companyId
      = none :=
  (C5_provisioning_fatality "bad fields").1

/-- C6: with step 1 succeeded (company id set) and a data source
attached, a failing step 3 (policy upload of either kind) leaves the
company id and the database list untouched, surfaces the failure, keeps
the Provision affordance, and step 4 can still be attempted — its
remote call is issued. -/
theorem C6_best_effort_continuation (s : OnboardingState) (cid : String)
    (dbId : Nat) (ptype : PolicyType) (detail : String)
    (refetched : List String) (pout : ProvisionOutcome)
    (hcid : s.companyId = some cid) (hdb : dbId ∈ s.databases) :
    (addPolicy s ptype (StepOutcome.failure detail) refetched).companyId = some cid
    ∧ (addPolicy s ptype (StepOutcome.failure detail) refetched).databases = s.databases
    ∧ provisionButtonShown (addPolicy s ptype (StepOutcome.failure detail) refetched) dbId
        = true
    ∧ detail ∈ (addPolicy s ptype (StepOutcome.failure detail) refetched).toastErrors
    ∧ (provisionEmployees (addPolicy s ptype (StepOutcome.failure detail) refetched) dbId
          pout).remoteLog
        = (addPolicy s ptype (StepOutcome.failure detail) refetched).remoteLog
            ++ ["company.provisionEmployees/" ++ toString dbId] := by
  cases ptype <;> cases pout <;>
    simp [addPolicy, provisionEmployees, provisionButtonShown, hcid, hdb]

/-- Witness for C6 at a concrete onboarded state. -/
theorem C6_best_effort_continuation_witness :
    (provisionEmployees (addPolicy onboarded PolicyType.text (StepOutcome.failure "boom") [])
        7 (ProvisionOutcome.success "ok")).remoteLog
      = (addPolicy onboarded PolicyType.text (StepOutcome.failure "boom") []).remoteLog
          ++ ["company.provisionEmployees/" ++ toString 7] :=
  (C6_best_effort_continuation onboarded "c1" 7 PolicyType.text "boom" []
    (ProvisionOutcome.success "ok") rfl (List.mem_singleton.mpr rfl)).2.2.2.2

/-- C7: marking a notification read twice in sequence, the second call
after the first's success, leaves exactly the end cache state of the
single call, and the second call is a no-op issuing no remote call —
for the ChatPage click handler, and for the DashboardPage handler
whenever the refetched list reflects the committed read. -/
theorem C7_idempotent_read (ns : List Notification) (id : Nat) (ok2 : Bool)
    (fresh : List Notification) (srv2 : Option (List Notification))
    (hfresh : ∀ n ∈ fresh, n.id = id → n.is_read = true) :
    ((clickNotification ((clickNotification ns id true).1) id ok2).1
        = (clickNotification ns id true).1
      ∧ (clickNotification ((clickNotification ns id true).1) id ok2).2 = 0)
    ∧ ((dashNotifClick ((dashNotifClick ns id (some fresh)).1) id srv2).1
        = (dashNotifClick ns id (some fresh)).1
      ∧ (dashNotifClick ((dashNotifClick ns id (some fresh)).1) id srv2).2 = 0) := by
  constructor
  · cases hfind : ns.find? (fun n => n.id == id) with
    | none => simp [clickNotification, hfind]
    | some n =>
        by_cases hread : n.is_read = true
        · simp [clickNotification, hfind, hread]
        · have hid : n.id = id := by simpa using List.find?_some hfind
          have hmarked : (markReadLocal ns id).find? (fun n => n.id == id)
              = some { n with is_read := true } := by
            rw [find_markReadLocal, hfind]
            simp [hid]
          have h1 : (clickNotification ns id true).1 = markReadLocal ns id := by
            simp [clickNotification, hfind, hread]
          rw [h1]
          constructor
          · show (clickNotification (markReadLocal ns id) id ok2).1 = markReadLocal ns id
            simp [clickNotification, hmarked]
          · show (clickNotification (markReadLocal ns id) id ok2).2 = 0
            simp [clickNotification, hmarked]
  · cases hfind : ns.find? (fun n => n.id == id) with
    | none => simp [dashNotifClick, hfind]
    | some n =>
        by_cases hread : n.is_read = true
        · simp [dashNotifClick, hfind, hread]
        · cases hffind : fresh.find? (fun n => n.id == id) with
          | none => simp [dashNotifClick, hfind, hread, hffind]
          | some m =>
              have hmid : m.id = id := by simpa using List.find?_some hffind
              have hmread : m.is_read = true :=
                hfresh m (List.mem_of_find?_eq_some hffind) hmid
              simp [dashNotifClick, hfind, hread, hffind, hmread]

/-- Witness for C7 at a concrete unread notification. -/
theorem C7_idempotent_read_witness :
    (clickNotification ((clickNotification [notif1] 5 true).1) 5 true).1
      = (clickNotification [notif1] 5 true).1 :=
  ((C7_idempotent_read [notif1] 5 true [notif1Read] none (by decide)).1).1

/-- C8: a poll tick whose refresh calls fail leaves the corresponding
cached lists exactly as they were (never cleared), the interval stays
installed, and the tick still attempted both fetches — so the next tick
retries both. -/
theorem C8_poll_failure_semantics (s : SurfaceState)
    (nres : Option (List Notification)) (rres : Option (List Request))
    (hact : s.schedulerActive = true) :
    (nres = none → (pollTick s nres rres).dashboard.notifications
        = s.dashboard.notifications)
    ∧ (rres = none → (pollTick s nres rres).dashboard.myRequests
        = s.dashboard.myRequests)
    ∧ (pollTick s nres rres).schedulerActive = true
    ∧ (pollTick s nres rres).fetchLog
        = s.fetchLog ++ ["notifications.list", "approvals.listMine"] := by
  refine ⟨?_, ?_, hact, rfl⟩
  · rintro rfl
    cases rres <;> rfl
  · rintro rfl
    cases nres <;> rfl

/-- Witness for C8 at a concrete surface state with a failing tick. -/
theorem C8_poll_failure_semantics_witness :
    (pollTick surfaceSample none none).dashboard.notifications
      = surfaceSample.dashboard.notifications
    ∧ (pollTick surfaceSample none none).schedulerActive = true :=
  ⟨(C8_poll_failure_semantics surfaceSample none none rfl).1 rfl,
   (C8_poll_failure_semantics surfaceSample none none rfl).2.2.1⟩

/-- C9: sending a non-empty chat message appends the user's message and
then exactly one assistant message (reply on success, fallback on
failure) at the end of the transcript — the old transcript is an
untouched prefix — and the effect trace appends the user message before
issuing the remote call; shown for both send implementations,
`ChatPage.send` and `DashboardPage.handleSend`. -/
theorem C9_chat_append_only (msgs : List ChatMsg) (msg : String)
    (outcome : ChatOutcome) (t1 t2 : Nat) (hne : msg ≠ "")
    (dmsgs : List DashMsg) (inputText : String) (mid u1 u2 : Nat)
    (htrim : jsTrim inputText ≠ "") :
    (sendMsg msgs msg outcome t1 t2).1
        = msgs ++ [{ role := "user", text := msg, time := t1 }, assistantMsg outcome t2]
    ∧ (∃ appended, (sendMsg msgs msg outcome t1 t2).1 = msgs ++ appended)
    ∧ (((sendMsg msgs msg outcome t1 t2).1.drop msgs.length).filter
          (fun m => m.role == "ai")).length = 1
    ∧ (sendMsg msgs msg outcome t1 t2).2
        = [ChatEvent.appendMsg { role := "user", text := msg, time := t1 },
           ChatEvent.remoteSend msg,
           ChatEvent.appendMsg (assistantMsg outcome t2)]
    ∧ (handleSend dmsgs inputText outcome mid u1 u2).1
        = dmsgs ++ [{ id := mid, type := "human", text := inputText, timestamp := u1 },
                    dashAssistantMsg outcome (mid + 1) u2]
    ∧ (∃ appended2, (handleSend dmsgs inputText outcome mid u1 u2).1 = dmsgs ++ appended2)
    ∧ (((handleSend dmsgs inputText outcome mid u1 u2).1.drop dmsgs.length).filter
          (fun m => m.type == "ai")).length = 1
    ∧ (handleSend dmsgs inputText outcome mid u1 u2).2
        = [DashChatEvent.appendMsg
             { id := mid, type := "human", text := inputText, timestamp := u1 },
           DashChatEvent.remoteSend inputText,
           DashChatEvent.appendMsg (dashAssistantMsg outcome (mid + 1) u2)] := by
  have hmain : (sendMsg msgs msg outcome t1 t2).1
      = msgs ++ [{ role := "user", text := msg, time := t1 }, assistantMsg outcome t2] := by
    simp [sendMsg, hne]
  have hdash : (handleSend dmsgs inputText outcome mid u1 u2).1
      = dmsgs ++ [{ id := mid, type := "human", text := inputText, timestamp := u1 },
                  dashAssistantMsg outcome (mid + 1) u2] := by
    simp [handleSend, htrim]
  refine ⟨hmain, ⟨_, hmain⟩, ?_, by simp [sendMsg, hne],
          hdash, ⟨_, hdash⟩, ?_, by simp [handleSend, htrim]⟩
  · rw [hmain, List.drop_left]
    cases outcome <;> simp [assistantMsg, List.filter]
  · rw [hdash, List.drop_left]
    cases outcome <;> simp [dashAssistantMsg, List.filter]

/-- Witness for C9 at a concrete message send through both pages. -/
theorem C9_chat_append_only_witness :
    (sendMsg [] "hi" (ChatOutcome.reply "hello") 0 1).1
      = [] ++ [{ role := "user", text := "hi", time := 0 },
               assistantMsg (ChatOutcome.reply "hello") 1]
    ∧ (handleSend [] "hi" (ChatOutcome.reply "hello") 9 0 1).1
      = [] ++ [{ id := 9, type := "human", text := "hi", timestamp := 0 },
               dashAssistantMsg (ChatOutcome.reply "hello") (9 + 1) 1] :=
  ⟨(C9_chat_append_only [] "hi" (ChatOutcome.reply "hello") 0 1 (by decide)
      [] "hi" 9 0 1 (by decide)).1,
   (C9_chat_append_only [] "hi" (ChatOutcome.reply "hello") 0 1 (by decide)
      [] "hi" 9 0 1 (by decide)).2.2.2.2.1⟩

/-- C10: opening the add-employee modal pre-fills the primary-key field
with EMP followed by one plus the maximum first decimal-digit run over
the existing employees' primary-key values, zero-padded to at least
three digits (EMP001 when the list is empty), and pre-fills every other
header with the empty string. -/
theorem C10_open_add_modal (pk : Option String) (employees : List EmpRec) :
    initField (openAddModalInit (primaryKeyCol pk) employees) (primaryKeyCol pk)
      = some (specPrefillId (primaryKeyCol pk) employees)
    ∧ ∀ h, h ∈ headersOf employees → h ≠ primaryKeyCol pk →
        initField (openAddModalInit (primaryKeyCol pk) employees) h = some "" := by
  constructor
  · unfold openAddModalInit
    rw [initField_setKey_same, genEmpId_eq_spec]
  · intro h hmem hne
    unfold openAddModalInit
    rw [initField_setKey_other _ _ _ _ hne, initField_base _ _ hmem]

/-- Witness for C10 at a concrete sheet with one employee row. -/
theorem C10_open_add_modal_witness :
    initField (openAddModalInit (primaryKeyCol none) [empRow1]) (primaryKeyCol none)
      = some (specPrefillId (primaryKeyCol none) [empRow1])
    ∧ initField (openAddModalInit (primaryKeyCol none) [empRow1]) "Name" = some "" :=
  ⟨(C10_open_add_modal none [empRow1]).1,
   (C10_open_add_modal none [empRow1]).2 "Name" (by decide) (by decide)⟩

end HRSupport
